import Mathlib

/-!
Verification development for the rusty-samplers AKP converter.

Shallow embedding of `src/main.rs` (parser and the two format generators)
and `src/lib.rs` (`convert_file`).  Byte streams are modelled as `List ℕ`
with an explicit cursor position; Rust's fallible reads become `Option` /
`Except`; the `f32` arithmetic of the generators is modelled exactly over
`ℚ` (for the affine formulas) and `ℝ` (for the `exp` / `powf` curves).
The `while` loops of `parse_top_level_chunks` and `parse_keygroup` are
modelled with an explicit fuel parameter; the wrappers supply fuel
`endPos - pos + 1`, which dominates the iteration count because every
iteration advances the cursor by at least the 8-byte chunk header.
-/

namespace RustySamplers

/-- Read `n` bytes at offset `pos`; `none` models `read_exact` hitting
end-of-stream. -/
def readAt (bytes : List ℕ) (pos n : ℕ) : Option (List ℕ) :=
  if pos + n ≤ bytes.length then some ((bytes.drop pos).take n) else none

/-- Read a single byte at offset `pos` (Rust `read_u8`). -/
def readU8 (bytes : List ℕ) (pos : ℕ) : Option ℕ := bytes[pos]?

/-- Decode an unsigned byte as Rust `i8` (`read_i8`). -/
def toI8 (b : ℕ) : ℤ := if b < 128 then (b : ℤ) else (b : ℤ) - 256

/-- Little-endian `u32` from four bytes (`read_u32::<LittleEndian>`). -/
def leU32 (b0 b1 b2 b3 : ℕ) : ℕ := b0 + 256 * b1 + 65536 * b2 + 16777216 * b3

/-- Four little-endian bytes of a `u32` value. -/
def encodeU32 (n : ℕ) : List ℕ :=
  [n % 256, n / 256 % 256, n / 65536 % 256, n / 16777216 % 256]

/-- ASCII bytes to string (models `str::from_utf8` on the ASCII subset this
format uses). -/
def asciiString (l : List ℕ) : String := String.mk (l.map Char.ofNat)

/-- Drop trailing NUL bytes (`trim_end_matches('\0')` applied to a chunk id). -/
def trimNulBytes (l : List ℕ) : List ℕ := (l.reverse.dropWhile (· = 0)).reverse

-- Data structures (`main.rs` lines 79-154), with Rust integer fields as ℕ/ℤ.

structure ProgramHeader where
  midi_program_number : ℕ
  number_of_keygroups : ℕ
deriving DecidableEq

structure Sample where
  filename : String
deriving DecidableEq

structure Tune where
  level : ℕ
  semitone : ℤ
  fine_tune : ℤ
deriving DecidableEq

structure Filt where
  cutoff : ℕ
  resonance : ℕ
  filter_type : ℕ
deriving DecidableEq

structure Envelope where
  attack : ℕ
  decay : ℕ
  sustain : ℕ
  release : ℕ
deriving DecidableEq

structure Lfo where
  waveform : ℕ
  rate : ℕ
  delay : ℕ
  depth : ℕ
deriving DecidableEq

structure Modulation where
  source : ℕ
  destination : ℕ
  amount : ℕ
deriving DecidableEq

structure Keygroup where
  low_key : ℕ
  high_key : ℕ
  low_vel : ℕ
  high_vel : ℕ
  sample : Option Sample
  tune : Option Tune
  filter : Option Filt
  amp_env : Option Envelope
  filter_env : Option Envelope
  aux_env : Option Envelope
  lfo1 : Option Lfo
  lfo2 : Option Lfo
  mods : List Modulation
deriving DecidableEq

/-- `Keygroup::default()`. -/
def keygroupDefault : Keygroup :=
  ⟨0, 0, 0, 0, none, none, none, none, none, none, none, none, []⟩

structure AkaiProgram where
  header : Option ProgramHeader
  keygroups : List Keygroup
deriving DecidableEq

/-- `AkaiProgram::default()`. -/
def akaiProgramDefault : AkaiProgram := ⟨none, []⟩

structure RiffChunkHeader where
  id : String
  size : ℕ
deriving DecidableEq

/-- The `AkpError` enum; `io::Error` payloads are modelled by a message
string. -/
inductive AkpError where
  | Io : String → AkpError
  | InvalidRiffHeader : AkpError
  | InvalidAprgSignature : AkpError
  | UnknownChunkType : String → AkpError
  | InvalidChunkSize : String → ℕ → AkpError
  | CorruptedChunk : String → String → AkpError
  | InvalidKeyRange : ℕ → ℕ → AkpError
  | InvalidVelocityRange : ℕ → ℕ → AkpError
  | MissingRequiredChunk : String → AkpError
  | InvalidParameterValue : String → ℕ → AkpError
deriving DecidableEq

-- Cursor sub-parsers (`main.rs` lines 1003-1099).  Each operates on the
-- fully-buffered chunk payload; a read past the payload end models the
-- propagated `io::Error` (`AkpError::Io`).

/-- `parse_program_header`: skip byte 0, read bytes 1 and 2. -/
def parseProgramHeader (payload : List ℕ) : Except AkpError ProgramHeader :=
  match readU8 payload 1, readU8 payload 2 with
  | some m, some n => .ok ⟨m, n⟩
  | _, _ => .error (.Io "unexpected end of file")

/-- `parse_zone_chunk`: assign the four range fields from payload bytes 1-4,
then validate key range, velocity range and the MIDI upper bounds in that
order. -/
def parseZoneChunk (payload : List ℕ) (kg : Keygroup) : Except AkpError Keygroup :=
  match readU8 payload 1, readU8 payload 2, readU8 payload 3, readU8 payload 4 with
  | some lk, some hk, some lv, some hv =>
    let kg := { kg with low_key := lk, high_key := hk, low_vel := lv, high_vel := hv }
    if lk > hk then .error (.InvalidKeyRange lk hk)
    else if lv > hv then .error (.InvalidVelocityRange lv hv)
    else if hk > 127 then .error (.InvalidParameterValue "high_key" hk)
    else if hv > 127 then .error (.InvalidParameterValue "high_vel" hv)
    else .ok kg
  | _, _, _, _ => .error (.Io "unexpected end of file")

/-- `parse_smpl_chunk`: bytes from offset 2 up to the first NUL form the
filename, which must be non-empty. -/
def parseSmplChunk (payload : List ℕ) : Except AkpError Sample :=
  let buffer := payload.drop 2
  let name := asciiString (buffer.takeWhile (· ≠ 0))
  if name = "" then .error (.CorruptedChunk "smpl" "Empty sample filename")
  else .ok ⟨name⟩

/-- `parse_tune_chunk`: level at byte 2, signed semitone at byte 3, signed
fine tune at byte 4. -/
def parseTuneChunk (payload : List ℕ) : Except AkpError Tune :=
  match readU8 payload 2, readU8 payload 3, readU8 payload 4 with
  | some level, some st, some ft => .ok ⟨level, toI8 st, toI8 ft⟩
  | _, _, _ => .error (.Io "unexpected end of file")

/-- `parse_filt_chunk`: cutoff at byte 2, resonance at byte 3, filter type at
byte 7; filter type must be at most 3. -/
def parseFiltChunk (payload : List ℕ) : Except AkpError Filt :=
  match readU8 payload 2, readU8 payload 3, readU8 payload 7 with
  | some c, some r, some t =>
    if t > 3 then .error (.InvalidParameterValue "filter_type" t)
    else .ok ⟨c, r, t⟩
  | _, _, _ => .error (.Io "unexpected end of file")

/-- `parse_env_chunk`: attack, decay, sustain, release at bytes 2-5. -/
def parseEnvChunk (payload : List ℕ) : Except AkpError Envelope :=
  match readU8 payload 2, readU8 payload 3, readU8 payload 4, readU8 payload 5 with
  | some a, some d, some s, some r => .ok ⟨a, d, s, r⟩
  | _, _, _, _ => .error (.Io "unexpected end of file")

/-- `parse_lfo_chunk`: waveform, rate, delay, depth at bytes 5-8. -/
def parseLfoChunk (payload : List ℕ) : Except AkpError Lfo :=
  match readU8 payload 5, readU8 payload 6, readU8 payload 7, readU8 payload 8 with
  | some w, some r, some dl, some dp => .ok ⟨w, r, dl, dp⟩
  | _, _, _, _ => .error (.Io "unexpected end of file")

/-- `parse_mods_chunk`: source, destination, amount at bytes 1-3. -/
def parseModsChunk (payload : List ℕ) : Except AkpError Modulation :=
  match readU8 payload 1, readU8 payload 2, readU8 payload 3 with
  | some s, some d, some a => .ok ⟨s, d, a⟩
  | _, _, _ => .error (.Io "unexpected end of file")

/-- `read_chunk_header`: 4 tag bytes (trailing NULs trimmed) and a
little-endian `u32` size; returns the header together with the position
just past it. -/
def readChunkHeader (bytes : List ℕ) (pos : ℕ) : Except AkpError (RiffChunkHeader × ℕ) :=
  match readAt bytes pos 4 with
  | none => .error (.Io "unexpected end of file")
  | some tag =>
    match readAt bytes (pos + 4) 4 with
    | none => .error (.Io "unexpected end of file")
    | some sz =>
      match sz with
      | [b0, b1, b2, b3] => .ok (⟨asciiString (trimNulBytes tag), leU32 b0 b1 b2 b3⟩, pos + 8)
      | _ => .error (.Io "unexpected end of file")

/-- Mutable state of the `parse_keygroup` loop: the keygroup being built and
the `env_count` / `lfo_count` occurrence counters. -/
structure KgState where
  kg : Keygroup
  envCount : ℕ
  lfoCount : ℕ
deriving DecidableEq

/-- One iteration body of the `parse_keygroup` loop (`main.rs` lines 931-990):
dispatch a fully-buffered nested chunk on its tag, with the per-tag minimum
size checks, the envelope/LFO occurrence counters, and unknown tags ignored. -/
def parseKeygroupStep (id : String) (size : ℕ) (payload : List ℕ) (st : KgState) :
    Except AkpError KgState :=
  if id = "zone" then
    if size < 5 then .error (.InvalidChunkSize "zone" size)
    else match parseZoneChunk payload st.kg with
      | .error e => .error e
      | .ok kg => .ok { st with kg := kg }
  else if id = "smpl" then
    if size < 3 then .error (.InvalidChunkSize "smpl" size)
    else match parseSmplChunk payload with
      | .error e => .error e
      | .ok s => .ok { st with kg := { st.kg with sample := some s } }
  else if id = "tune" then
    if size < 5 then .error (.InvalidChunkSize "tune" size)
    else match parseTuneChunk payload with
      | .error e => .error e
      | .ok t => .ok { st with kg := { st.kg with tune := some t } }
  else if id = "filt" then
    if size < 8 then .error (.InvalidChunkSize "filt" size)
    else match parseFiltChunk payload with
      | .error e => .error e
      | .ok f => .ok { st with kg := { st.kg with filter := some f } }
  else if id = "env " then
    if size < 6 then .error (.InvalidChunkSize "env" size)
    else match parseEnvChunk payload with
      | .error e => .error e
      | .ok env =>
        let kg :=
          if st.envCount = 0 then { st.kg with amp_env := some env }
          else if st.envCount = 1 then { st.kg with filter_env := some env }
          else if st.envCount = 2 then { st.kg with aux_env := some env }
          else st.kg
        .ok { st with kg := kg, envCount := st.envCount + 1 }
  else if id = "lfo " then
    if size < 9 then .error (.InvalidChunkSize "lfo" size)
    else match parseLfoChunk payload with
      | .error e => .error e
      | .ok lfo =>
        let kg :=
          if st.lfoCount = 0 then { st.kg with lfo1 := some lfo }
          else if st.lfoCount = 1 then { st.kg with lfo2 := some lfo }
          else st.kg
        .ok { st with kg := kg, lfoCount := st.lfoCount + 1 }
  else if id = "mods" then
    if size < 4 then .error (.InvalidChunkSize "mods" size)
    else match parseModsChunk payload with
      | .error e => .error e
      | .ok m => .ok { st with kg := { st.kg with mods := st.kg.mods ++ [m] } }
  else
    .ok st

/-- The `parse_keygroup` loop: while the cursor is before the sub-region end,
read a chunk header, buffer `size` payload bytes and dispatch.  `fuel`
bounds the iteration count; the wrapper supplies enough for every run since
each iteration advances the cursor by at least 8 bytes. -/
def parseKeygroupLoop : ℕ → List ℕ → ℕ → ℕ → KgState → Except AkpError (Keygroup × ℕ)
  | 0, _, _, _, _ => .error (.Io "fuel exhausted")
  | fuel + 1, bytes, pos, endPos, st =>
    if pos < endPos then
      match readChunkHeader bytes pos with
      | .error e => .error e
      | .ok (hdr, pos1) =>
        match readAt bytes pos1 hdr.size with
        | none => .error (.Io "unexpected end of file")
        | some payload =>
          match parseKeygroupStep hdr.id hdr.size payload st with
          | .error e => .error e
          | .ok st1 => parseKeygroupLoop fuel bytes (pos1 + hdr.size) endPos st1
    else .ok (st.kg, pos)

/-- `parse_keygroup(file, end_pos)`: returns the keygroup together with the
stream position at which top-level parsing resumes. -/
def parseKeygroup (bytes : List ℕ) (pos endPos : ℕ) : Except AkpError (Keygroup × ℕ) :=
  parseKeygroupLoop (endPos - pos + 1) bytes pos endPos ⟨keygroupDefault, 0, 0⟩

/-- The `parse_top_level_chunks` loop (`main.rs` lines 879-917): dispatch
`prg ` and `kgrp` chunks, skip unknown chunks by seeking past their declared
size. -/
def parseTopLevelLoop : ℕ → List ℕ → ℕ → ℕ → AkaiProgram → Except AkpError AkaiProgram
  | 0, _, _, _, _ => .error (.Io "fuel exhausted")
  | fuel + 1, bytes, pos, endPos, prog =>
    if pos < endPos then
      match readChunkHeader bytes pos with
      | .error e => .error e
      | .ok (hdr, pos1) =>
        if hdr.id = "prg " then
          if hdr.size < 3 then .error (.InvalidChunkSize "prg" hdr.size)
          else match readAt bytes pos1 hdr.size with
            | none => .error (.CorruptedChunk "prg" "Failed to read chunk data")
            | some payload =>
              match parseProgramHeader payload with
              | .error e => .error e
              | .ok h =>
                parseTopLevelLoop fuel bytes (pos1 + hdr.size) endPos
                  { prog with header := some h }
        else if hdr.id = "kgrp" then
          if hdr.size = 0 then .error (.InvalidChunkSize "kgrp" hdr.size)
          else match parseKeygroup bytes pos1 (pos1 + hdr.size) with
            | .error e => .error e
            | .ok (kg, pos2) =>
              parseTopLevelLoop fuel bytes pos2 endPos
                { prog with keygroups := prog.keygroups ++ [kg] }
        else
          parseTopLevelLoop fuel bytes (pos1 + hdr.size) endPos prog
    else .ok prog

/-- `parse_top_level_chunks(file, end_pos, program)`. -/
def parseTopLevelChunks (bytes : List ℕ) (pos endPos : ℕ) (prog : AkaiProgram) :
    Except AkpError AkaiProgram :=
  parseTopLevelLoop (endPos - pos + 1) bytes pos endPos prog

/-- `validate_riff_header`: require "RIFF" at offset 0 and "APRG" at offset 8
(the 4-byte size field between them is skipped); leaves the stream at
offset 12. -/
def validateRiffHeader (bytes : List ℕ) : Except AkpError Unit :=
  match readAt bytes 0 4 with
  | none => .error (.CorruptedChunk "RIFF" "Failed to read RIFF signature")
  | some b =>
    if asciiString b ≠ "RIFF" then .error .InvalidRiffHeader
    else match readAt bytes 8 4 with
      | none => .error (.CorruptedChunk "APRG" "Failed to read APRG signature")
      | some b2 =>
        if asciiString b2 ≠ "APRG" then .error .InvalidAprgSignature
        else .ok ()

/-- The parse phase of `run_conversion` (`main.rs` lines 811-829): validate
the header (stream now at offset 12), parse top-level chunks up to the file
length, then reject a program with zero keygroups.  The selected generator is
applied to the resulting program on the `ok` branch only. -/
def runConversionCore (bytes : List ℕ) : Except AkpError AkaiProgram :=
  match validateRiffHeader bytes with
  | .error e => .error e
  | .ok _ =>
    match parseTopLevelChunks bytes 12 bytes.length akaiProgramDefault with
    | .error e => .error e
    | .ok prog =>
      if prog.keygroups = [] then .error (.MissingRequiredChunk "keygroup")
      else .ok prog

/-- Debug rendering of `AkpError` (Rust `{:?}`), used by `convert_file`'s
error strings. -/
def akpErrorDebug : AkpError → String
  | .Io s => "Io(" ++ s ++ ")"
  | .InvalidRiffHeader => "InvalidRiffHeader"
  | .InvalidAprgSignature => "InvalidAprgSignature"
  | .UnknownChunkType s => "UnknownChunkType(\x22" ++ s ++ "\x22)"
  | .InvalidChunkSize s n => "InvalidChunkSize(\x22" ++ s ++ "\x22, " ++ toString n ++ ")"
  | .CorruptedChunk s t => "CorruptedChunk(\x22" ++ s ++ "\x22, \x22" ++ t ++ "\x22)"
  | .InvalidKeyRange a b => "InvalidKeyRange(" ++ toString a ++ ", " ++ toString b ++ ")"
  | .InvalidVelocityRange a b => "InvalidVelocityRange(" ++ toString a ++ ", " ++ toString b ++ ")"
  | .MissingRequiredChunk s => "MissingRequiredChunk(\x22" ++ s ++ "\x22)"
  | .InvalidParameterValue s n => "InvalidParameterValue(\x22" ++ s ++ "\x22, " ++ toString n ++ ")"

/-- The parse phase of `lib.rs`'s `convert_file` (lines 24-64): validate the
header (stream at offset 12), seek 4 further bytes forward, parse top-level
chunks from offset 16 to the file length, and hand the program straight to
the selected generator — there is no zero-keygroup check. -/
def convertFileCore (bytes : List ℕ) : Except String AkaiProgram :=
  match validateRiffHeader bytes with
  | .error e => .error ("Invalid AKP file: " ++ akpErrorDebug e)
  | .ok _ =>
    match parseTopLevelChunks bytes 16 bytes.length akaiProgramDefault with
    | .error e => .error ("Failed to parse AKP chunks: " ++ akpErrorDebug e)
    | .ok prog => .ok prog

-- Numeric transforms of the SFZ generator (`to_sfz_string`, `main.rs`
-- lines 200-423), modelled exactly over ℚ / ℝ.

/-- SFZ volume: `(level / 100) * 66 - 60` (line 224). -/
def volumeDb (level : ℕ) : ℚ := (level : ℚ) / 100 * 66 - 60

/-- SFZ amp-envelope attack: `0` when raw is `0`, else
`exp(raw / 100 * 4) * 0.001` (line 236). -/
noncomputable def sfzAttackTime (raw : ℕ) : ℝ :=
  if raw = 0 then 0 else Real.exp ((raw : ℝ) / 100 * 4) * 0.001

/-- SFZ amp-envelope decay: `0` when raw is `0`, else
`exp(raw / 100 * 4) * 0.001` (line 237). -/
noncomputable def sfzDecayTime (raw : ℕ) : ℝ :=
  if raw = 0 then 0 else Real.exp ((raw : ℝ) / 100 * 4) * 0.001

/-- SFZ amp-envelope release: `0.001` when raw is `0`, else
`exp(raw / 100 * 5) * 0.001` (line 238). -/
noncomputable def sfzReleaseTime (raw : ℕ) : ℝ :=
  if raw = 0 then 0.001 else Real.exp ((raw : ℝ) / 100 * 5) * 0.001

/-- SFZ sustain is emitted as the raw 0-100 level (line 242). -/
def sfzSustainOut (raw : ℕ) : ℕ := raw

/-- SFZ filter cutoff: `20 * 1000^(cutoff / 100)` Hz (line 265). -/
noncomputable def cutoffHz (cutoff : ℕ) : ℝ :=
  20 * (1000 : ℝ) ^ ((cutoff : ℝ) / 100)

/-- Modulation source tag table (lines 348-363); `none` models `continue`. -/
def sfzModSource : ℕ → Option String
  | 0 => some "lfo1"
  | 1 => some "modwheel"
  | 2 => some "aftertouch"
  | 3 => some "key"
  | 4 => some "keygate"
  | 5 => some "vel"
  | 6 => some "lfo2"
  | 7 => some "pitchbend"
  | 8 => some "chanpress"
  | 9 => some "polypress"
  | 10 => some "breath"
  | 11 => some "foot"
  | 12 => some "expression"
  | _ => none

/-- Modulation destination tag and scale-factor table (lines 365-385);
`none` models `continue`. -/
def sfzModDest : ℕ → Option (String × ℚ)
  | 0 => some ("pitch", 12)
  | 1 => some ("cutoff", 9600)
  | 2 => some ("resonance", 40)
  | 3 => some ("volume", 60)
  | 4 => some ("pan", 100)
  | 5 => some ("lfo1_freq", 20)
  | 6 => some ("lfo2_freq", 20)
  | 7 => some ("ampeg_attack", 10)
  | 8 => some ("ampeg_decay", 10)
  | 9 => some ("ampeg_sustain", 100)
  | 10 => some ("ampeg_release", 10)
  | 11 => some ("fileg_attack", 10)
  | 12 => some ("fileg_decay", 10)
  | 13 => some ("fileg_sustain", 100)
  | 14 => some ("fileg_release", 10)
  | 15 => some ("amplfo_depth", 100)
  | 16 => some ("fillfo_depth", 9600)
  | 17 => some ("pitchlfo_depth", 1200)
  | _ => none

/-- One rendered `source_to_destination=value` modulation line. -/
structure ModLine where
  src : String
  dest : String
  value : ℚ
deriving DecidableEq

/-- Rendering of one modulation entry (lines 347-392): look up the source
tag and the destination tag/scale, normalise the amount to bipolar
`(amount / 100) * 2 - 1` and multiply by the scale factor; an unmapped
source or destination drops the entry. -/
def renderModulation (m : Modulation) : Option ModLine :=
  match sfzModSource m.source with
  | none => none
  | some s =>
    match sfzModDest m.destination with
    | none => none
    | some (d, scale) => some ⟨s, d, ((m.amount : ℚ) / 100 * 2 - 1) * scale⟩

/-- The modulation lines of one keygroup, in entry order. -/
def sfzModLines (mods : List Modulation) : List ModLine := mods.filterMap renderModulation

/-- Rust `filename.replace("\\", "/")`: the pattern is the single backslash
character, so the replacement is a character-wise map. -/
def replaceBackslashes (s : String) : String :=
  String.mk (s.data.map (fun c => if c = '\x5c' then '/' else c))

/-- The SFZ sample opcode (lines 210-213): backslashes replaced by forward
slashes. -/
def sfzSampleOpcode (s : Sample) : String :=
  "sample=" ++ replaceBackslashes s.filename ++ "\n"

-- Numeric transforms of the Decent Sampler XML generator
-- (`to_dspreset_string`, `main.rs` lines 426-564).

/-- XML group attack: floors at `0.001` when raw is `0` (line 465). -/
noncomputable def dsAttack (raw : ℕ) : ℝ :=
  if raw = 0 then 0.001 else Real.exp ((raw : ℝ) / 100 * 4) * 0.001

/-- XML group decay: floors at `0.1` when raw is `0` (line 466). -/
noncomputable def dsDecay (raw : ℕ) : ℝ :=
  if raw = 0 then 0.1 else Real.exp ((raw : ℝ) / 100 * 4) * 0.001

/-- XML group sustain: the raw level divided by 100 (line 467). -/
noncomputable def dsSustain (raw : ℕ) : ℝ := (raw : ℝ) / 100

/-- XML group release: floors at `0.1` when raw is `0` (line 468). -/
noncomputable def dsRelease (raw : ℕ) : ℝ :=
  if raw = 0 then 0.1 else Real.exp ((raw : ℝ) / 100 * 5) * 0.001

/-- The XML `<sample .../>` element of a keygroup (lines 483-499): the
filename is interpolated verbatim into the `path` attribute — no backslash
replacement and no XML escaping — followed by the integer range and optional
tuning attributes. -/
def xmlSampleElement (lowKey highKey lowVel highVel : ℕ) (s : Sample)
    (tune : Option Tune) : String :=
  "      <sample " ++
  ("path=\x22" ++ s.filename ++ "\x22 ") ++
  ("loNote=\x22" ++ toString lowKey ++ "\x22 hiNote=\x22" ++ toString highKey ++ "\x22 ") ++
  ("loVel=\x22" ++ toString lowVel ++ "\x22 hiVel=\x22" ++ toString highVel ++ "\x22 ") ++
  (match tune with
   | some t =>
     (if t.semitone ≠ 0 then "tuning=\x22" ++ toString t.semitone ++ "\x22 " else "") ++
     (if t.fine_tune ≠ 0 then "fineTuning=\x22" ++ toString t.fine_tune ++ "\x22 " else "")
   | none => "") ++
  "/>\n"

instance {ε α : Type} [DecidableEq ε] [DecidableEq α] : DecidableEq (Except ε α) := fun x y =>
  match x, y with
  | .ok a, .ok b =>
    if h : a = b then .isTrue (by rw [h]) else .isFalse (fun hh => h (Except.ok.inj hh))
  | .error a, .error b =>
    if h : a = b then .isTrue (by rw [h]) else .isFalse (fun hh => h (Except.error.inj hh))
  | .ok _, .error _ => .isFalse (fun hh => Except.noConfusion hh)
  | .error _, .ok _ => .isFalse (fun hh => Except.noConfusion hh)

/-- On a successful run, the keygroup loop only stops once the cursor has
reached or passed the sub-region end offset. -/
theorem parseKeygroupLoop_ok_ge (fuel : ℕ) :
    ∀ bytes pos endPos st kg pos',
      parseKeygroupLoop fuel bytes pos endPos st = .ok (kg, pos') → endPos ≤ pos' := by
  induction fuel with
  | zero =>
    intro bytes pos endPos st kg p h
    simp [parseKeygroupLoop] at h
  | succ f ih =>
    intro bytes pos endPos st kg p h
    rw [parseKeygroupLoop] at h
    split at h
    case isTrue hlt =>
      split at h
      case h_1 => simp at h
      case h_2 hdr pos1 heq =>
        split at h
        case h_1 => simp at h
        case h_2 payload hp =>
          split at h
          case h_1 => simp at h
          case h_2 st1 hs => exact ih bytes _ endPos st1 kg p h
    case isFalse hlt =>
      simp at h
      omega

/-- Decidable check that every nested chunk starting inside the sub-region
also ends inside it (header position plus declared size never exceeds the
sub-region end offset). -/
def chunksWithinLoop : ℕ → List ℕ → ℕ → ℕ → Bool
  | 0, _, _, _ => false
  | fuel + 1, bytes, pos, endPos =>
    if pos < endPos then
      match readChunkHeader bytes pos with
      | .error _ => true
      | .ok (hdr, pos1) =>
        decide (pos1 + hdr.size ≤ endPos) && chunksWithinLoop fuel bytes (pos1 + hdr.size) endPos
    else true

/-- Every nested chunk of the keygroup sub-region `[pos, endPos)` lies
entirely within the sub-region. -/
def nestedChunksWithin (bytes : List ℕ) (pos endPos : ℕ) : Bool :=
  chunksWithinLoop (endPos - pos + 1) bytes pos endPos

/-- When every nested chunk fits inside the sub-region, a successful keygroup
loop run stops exactly at the sub-region end offset. -/
theorem parseKeygroupLoop_ok_exact (fuel : ℕ) :
    ∀ bytes pos endPos st kg pos', pos ≤ endPos →
      chunksWithinLoop fuel bytes pos endPos = true →
      parseKeygroupLoop fuel bytes pos endPos st = .ok (kg, pos') → pos' = endPos := by
  induction fuel with
  | zero =>
    intro bytes pos endPos st kg p _ _ h
    simp [parseKeygroupLoop] at h
  | succ f ih =>
    intro bytes pos endPos st kg p hle hw h
    rw [parseKeygroupLoop] at h
    rw [chunksWithinLoop] at hw
    split at h
    case isTrue hlt =>
      rw [if_pos hlt] at hw
      split at h
      case h_1 => simp at h
      case h_2 hdr pos1 heq =>
        rw [heq] at hw
        simp only [Bool.and_eq_true, decide_eq_true_eq] at hw
        obtain ⟨hfit, hw'⟩ := hw
        split at h
        case h_1 => simp at h
        case h_2 payload hp =>
          split at h
          case h_1 => simp at h
          case h_2 st1 hs => exact ih bytes _ endPos st1 kg p hfit hw' h
    case isFalse hlt =>
      simp at h
      omega

/-- A zone chunk whose validation fails aborts the keygroup loop with that
error: the partially-built keygroup state is discarded. -/
theorem parseKeygroupLoop_zone_error (bytes : List ℕ) (pos endPos pos1 sz : ℕ)
    (payload : List ℕ) (st : KgState) (fuel : ℕ) (e : AkpError)
    (hlt : pos < endPos)
    (hh : readChunkHeader bytes pos = .ok (⟨"zone", sz⟩, pos1))
    (hp : readAt bytes pos1 sz = some payload)
    (hsz : 5 ≤ sz)
    (he : parseZoneChunk payload st.kg = .error e) :
    parseKeygroupLoop (fuel + 1) bytes pos endPos st = .error e := by
  have hsz' : ¬ sz < 5 := by omega
  have hstep : parseKeygroupStep "zone" sz payload st = .error e := by
    simp [parseKeygroupStep, hsz', he]
  rw [parseKeygroupLoop, if_pos hlt, hh]
  simp only
  rw [hp]
  simp only
  rw [hstep]

/-- A keygroup chunk whose sub-parse fails aborts the top-level loop with
that error for every incoming program: no keygroup is appended and no
program is returned. -/
theorem parseTopLevelLoop_kgrp_error (bytes : List ℕ) (pos endPos pos1 n : ℕ)
    (fuel : ℕ) (e : AkpError) (prog : AkaiProgram)
    (hlt : pos < endPos)
    (hh : readChunkHeader bytes pos = .ok (⟨"kgrp", n⟩, pos1))
    (hn : n ≠ 0)
    (he : parseKeygroup bytes pos1 (pos1 + n) = .error e) :
    parseTopLevelLoop (fuel + 1) bytes pos endPos prog = .error e := by
  rw [parseTopLevelLoop, if_pos hlt, hh]
  simp only
  simp [hn, he]

-- Concrete byte streams used by witnesses and counterexamples.

/-- A structurally valid 12-byte file: just `RIFF`, a size field and `APRG`,
no chunks at all, so parsing yields a program with zero keygroups. -/
def emptyProgramFile : List ℕ := [82, 73, 70, 70, 0, 0, 0, 0, 65, 80, 82, 71]

/-- A keygroup sub-region holding one `mods` chunk: 8-byte header declaring
size 4 plus 4 payload bytes, 12 bytes in all.  Used with a sub-region end
offset of 9, the chunk's declared size extends 3 bytes past the sub-region
end. -/
def modsOverrunFile : List ℕ := [109, 111, 100, 115, 4, 0, 0, 0, 0, 1, 5, 75]

-- Claim C2

/-- C2 counterexample: for the tune payload `[0, 0, 75, -12, 25]` the parsed
level is 75 and the volume formula `level / 100 * 66 - 60` of the code gives
`-10.5`, not the `-12.00` the claim asserts (the in-repo unit test expecting
`-12.00` still reflects a superseded `level / 100 * 48 - 48` formula). -/
theorem c2_tune_scenario_counterexample :
    parseTuneChunk [0, 0, 75, 244, 25] = .ok ⟨75, -12, 25⟩ ∧
    volumeDb 75 = -10.5 ∧ (-10.5 : ℚ) ≠ -12 :=
  ⟨rfl, by norm_num [volumeDb], by norm_num⟩

/-- C2 (amended): for the tune payload `[0, 0, 75, -12, 25]` (bytes 3 and 4
read as signed), the parsed tune is level 75, semitone -12, fine tune 25, and
the opcode generator renders `volume=-10.50` (by `volume_db = 75/100*66-60`),
`tune=-12` and `fine_tune=25`. -/
theorem c2_tune_scenario :
    parseTuneChunk [0, 0, 75, 244, 25] = .ok ⟨75, -12, 25⟩ ∧
    volumeDb 75 = -10.5 :=
  ⟨rfl, by norm_num [volumeDb]⟩

-- Claim C4

/-- C4 counterexample: the 12-byte file consisting only of the RIFF/APRG
header parses without error into a program with zero keygroups, yet the
`convert_file` entry point of `lib.rs` succeeds and hands that program to the
generator, while only `run_conversion` fails with the missing-required-chunk
error.  The claimed behaviour does not hold at every entry point. -/
theorem c4_zero_keygroups_counterexample :
    convertFileCore emptyProgramFile = .ok ⟨none, []⟩ ∧
    runConversionCore emptyProgramFile = .error (.MissingRequiredChunk "keygroup") :=
  ⟨rfl, rfl⟩

/-- C4 (amended): at the `run_conversion` entry point, every input that
validates and parses without error but yields a program with zero keygroups
fails with the missing-required-chunk error, so no output is produced there;
the `convert_file` entry point performs no such check. -/
theorem c4_zero_keygroups_run_conversion (bytes : List ℕ) (prog : AkaiProgram)
    (hv : validateRiffHeader bytes = .ok ())
    (hp : parseTopLevelChunks bytes 12 bytes.length akaiProgramDefault = .ok prog)
    (hk : prog.keygroups = []) :
    runConversionCore bytes = .error (.MissingRequiredChunk "keygroup") := by
  simp [runConversionCore, hv, hp, hk]

/-- C4 witness: the header-only file instantiates the amended claim. -/
theorem c4_zero_keygroups_run_conversion_witness :
    validateRiffHeader emptyProgramFile = .ok () ∧
    runConversionCore emptyProgramFile = .error (.MissingRequiredChunk "keygroup") :=
  ⟨rfl, c4_zero_keygroups_run_conversion emptyProgramFile ⟨none, []⟩ rfl rfl rfl⟩

-- Claim C5

/-- C5 counterexample: inside a keygroup sub-region ending at offset 9, a
nested `mods` chunk declaring size 4 occupies bytes 0-11, so the keygroup
parser consumes it in full and hands position 12 — strictly past the
sub-region end — back to the top-level parser. -/
theorem c5_keygroup_subregion_counterexample :
    parseKeygroup modsOverrunFile 0 9 = .ok ({ keygroupDefault with mods := [⟨1, 5, 75⟩] }, 12) ∧
    ¬ (12 : ℕ) ≤ 9 :=
  ⟨rfl, by norm_num⟩

/-- C5 (amended): on a successful keygroup parse the stream position at which
top-level parsing resumes is at least the sub-region end offset, and it is
exactly the sub-region end offset whenever every nested chunk lies entirely
within the sub-region; a nested chunk whose declared size extends past the
sub-region end is still consumed in full, pushing the resume position past
the end offset. -/
theorem c5_keygroup_subregion (bytes : List ℕ) (pos endPos : ℕ) (kg : Keygroup) (pos' : ℕ)
    (hle : pos ≤ endPos)
    (h : parseKeygroup bytes pos endPos = .ok (kg, pos')) :
    endPos ≤ pos' ∧ (nestedChunksWithin bytes pos endPos = true → pos' = endPos) :=
  ⟨parseKeygroupLoop_ok_ge _ _ _ _ _ _ _ h,
   fun hw => parseKeygroupLoop_ok_exact _ _ _ _ _ _ _ hle hw h⟩

/-- C5 witness: the same `mods` chunk parsed against sub-region end 12 — the
chunk now fits exactly — resumes exactly at 12. -/
theorem c5_keygroup_subregion_witness :
    parseKeygroup modsOverrunFile 0 12 = .ok ({ keygroupDefault with mods := [⟨1, 5, 75⟩] }, 12) ∧
    (12 ≤ 12 ∧ (nestedChunksWithin modsOverrunFile 0 12 = true → 12 = 12)) :=
  ⟨rfl, c5_keygroup_subregion modsOverrunFile 0 12 { keygroupDefault with mods := [⟨1, 5, 75⟩] } 12
    (by norm_num) rfl⟩

-- Claim C3

/-- Non-negativity of the shared amp-envelope attack/decay transform. -/
theorem envTime_nonneg (n : ℕ) :
    (0:ℝ) ≤ if n = 0 then 0 else Real.exp ((n : ℝ) / 100 * 4) * 0.001 := by
  split
  · exact le_refl 0
  · positivity

/-- Monotonicity of the shared amp-envelope attack/decay transform. -/
theorem envTime_mono (r1 r2 : ℕ) (h12 : r1 ≤ r2) :
    (if r1 = 0 then (0:ℝ) else Real.exp ((r1 : ℝ) / 100 * 4) * 0.001) ≤
    (if r2 = 0 then (0:ℝ) else Real.exp ((r2 : ℝ) / 100 * 4) * 0.001) := by
  by_cases h1 : r1 = 0
  · rw [if_pos h1]
    exact envTime_nonneg r2
  · have h2 : r2 ≠ 0 := by omega
    rw [if_neg h1, if_neg h2]
    have hcast : (r1 : ℝ) ≤ (r2 : ℝ) := Nat.cast_le.mpr h12
    have harg : (r1 : ℝ) / 100 * 4 ≤ (r2 : ℝ) / 100 * 4 := by linarith
    exact mul_le_mul_of_nonneg_right (Real.exp_le_exp.mpr harg) (by norm_num)

/-- C3: for amp-envelope raw values in [0,100] the generated attack and decay
times are non-negative, monotonically non-decreasing in the raw value and
zero exactly at raw value 0, and the release time never falls below 0.001
seconds. -/
theorem c3_amp_envelope (r r1 r2 : ℕ) (hr : r ≤ 100) (h12 : r1 ≤ r2) (h2 : r2 ≤ 100) :
    0 ≤ sfzAttackTime r ∧ 0 ≤ sfzDecayTime r ∧
    (sfzAttackTime r = 0 ↔ r = 0) ∧ (sfzDecayTime r = 0 ↔ r = 0) ∧
    sfzAttackTime r1 ≤ sfzAttackTime r2 ∧ sfzDecayTime r1 ≤ sfzDecayTime r2 ∧
    0.001 ≤ sfzReleaseTime r := by
  have hzero : ∀ n : ℕ,
      ((if n = 0 then (0:ℝ) else Real.exp ((n : ℝ) / 100 * 4) * 0.001) = 0 ↔ n = 0) := by
    intro n
    constructor
    · intro h
      by_contra hn
      rw [if_neg hn] at h
      have : (0:ℝ) < Real.exp ((n : ℝ) / 100 * 4) * 0.001 := by positivity
      linarith
    · intro h
      rw [if_pos h]
  refine ⟨envTime_nonneg r, envTime_nonneg r, hzero r, hzero r,
    envTime_mono r1 r2 h12, envTime_mono r1 r2 h12, ?_⟩
  by_cases h : r = 0
  · simp [sfzReleaseTime, h]
  · rw [sfzReleaseTime, if_neg h]
    have hx : (0:ℝ) ≤ (r : ℝ) / 100 * 5 := by positivity
    have := Real.add_one_le_exp ((r : ℝ) / 100 * 5)
    nlinarith

/-- C3 witness: the envelope-time properties at raw values 3 and 70. -/
theorem c3_amp_envelope_witness :
    ((3:ℕ) ≤ 100 ∧ (3:ℕ) ≤ 70 ∧ (70:ℕ) ≤ 100) ∧
    (0 ≤ sfzAttackTime 3 ∧ 0 ≤ sfzDecayTime 3 ∧
     (sfzAttackTime 3 = 0 ↔ (3:ℕ) = 0) ∧ (sfzDecayTime 3 = 0 ↔ (3:ℕ) = 0) ∧
     sfzAttackTime 3 ≤ sfzAttackTime 70 ∧ sfzDecayTime 3 ≤ sfzDecayTime 70 ∧
     0.001 ≤ sfzReleaseTime 3) :=
  ⟨by norm_num, c3_amp_envelope 3 3 70 (by norm_num) (by norm_num) (by norm_num)⟩

-- Claim C7

/-- C7: the filter cutoff transform `20 * 1000^(cutoff/100)` is strictly
increasing, spans exactly 20 Hz at raw 0 and 20000 Hz at raw 100, and at raw
50 renders `cutoff=632.5` to one decimal place (its value `20 * sqrt 1000`
rounds to 632.5, stated as `round (10 * value) = 6325`). -/
theorem c7_filter_cutoff (c1 c2 : ℕ) (h12 : c1 < c2) (h2 : c2 ≤ 100) :
    cutoffHz c1 < cutoffHz c2 ∧ cutoffHz 0 = 20 ∧ cutoffHz 100 = 20000 ∧
    round (10 * cutoffHz 50) = 6325 := by
  refine ⟨?_, ?_, ?_, ?_⟩
  · rw [cutoffHz, cutoffHz]
    have hcast : (c1 : ℝ) < (c2 : ℝ) := by exact_mod_cast h12
    have hlt : ((c1 : ℝ) / 100) < ((c2 : ℝ) / 100) := by linarith
    have := (Real.rpow_lt_rpow_left_iff (by norm_num : (1:ℝ) < 1000)).mpr hlt
    linarith
  · have h0 : ((0:ℕ) : ℝ) / 100 = 0 := by norm_num
    rw [cutoffHz, h0, Real.rpow_zero]
    norm_num
  · have h1 : ((100:ℕ) : ℝ) / 100 = 1 := by norm_num
    rw [cutoffHz, h1, Real.rpow_one]
    norm_num
  · have h50 : ((50:ℕ) : ℝ) / 100 = 1 / 2 := by norm_num
    rw [cutoffHz, h50, ← Real.sqrt_eq_rpow]
    have hsq : Real.sqrt 1000 ^ 2 = 1000 := Real.sq_sqrt (by norm_num)
    have hnn : (0:ℝ) ≤ Real.sqrt 1000 := Real.sqrt_nonneg 1000
    have hs1 : (31.6225 : ℝ) ≤ Real.sqrt 1000 := by nlinarith
    have hs2 : Real.sqrt 1000 < 31.6275 := by nlinarith
    rw [round_eq, Int.floor_eq_iff]
    constructor
    · push_cast
      nlinarith
    · push_cast
      nlinarith

/-- C7 witness: the cutoff properties at raw values 30 and 80. -/
theorem c7_filter_cutoff_witness :
    ((30:ℕ) < 80 ∧ (80:ℕ) ≤ 100) ∧
    (cutoffHz 30 < cutoffHz 80 ∧ cutoffHz 0 = 20 ∧ cutoffHz 100 = 20000 ∧
     round (10 * cutoffHz 50) = 6325) :=
  ⟨by norm_num, c7_filter_cutoff 30 80 (by norm_num) (by norm_num)⟩

-- Claim C9

/-- C9 counterexample: the XML and opcode generators do not differ only in
the decay/release zero-flooring — at raw attack 0 the XML generator emits
0.001 while the opcode generator emits 0, and the XML sustain attribute is
the raw level divided by 100 while the opcode generator passes the raw 0-100
level through. -/
theorem c9_xml_envelope_counterexample :
    dsAttack 0 ≠ sfzAttackTime 0 ∧ dsSustain 50 ≠ ((50 : ℕ) : ℝ) := by
  constructor
  · simp [dsAttack, sfzAttackTime]
    norm_num
  · simp [dsSustain]
    norm_num

/-- C9 (amended): for nonzero raw values the XML group attack/decay/release
attributes agree exactly with the opcode generator's amp-envelope transforms;
at raw 0 the XML generator floors attack at 0.001 and decay/release at 0.1
where the opcode generator uses 0, 0 and 0.001 respectively; and the XML
sustain is the raw level divided by 100 where the opcode generator emits the
raw 0-100 level. -/
theorem c9_xml_envelope (a d r s : ℕ) (ha : a ≠ 0) (hd : d ≠ 0) (hr : r ≠ 0) :
    dsAttack a = sfzAttackTime a ∧ dsDecay d = sfzDecayTime d ∧
    dsRelease r = sfzReleaseTime r ∧
    dsAttack 0 = 0.001 ∧ sfzAttackTime 0 = 0 ∧
    dsDecay 0 = 0.1 ∧ sfzDecayTime 0 = 0 ∧
    dsRelease 0 = 0.1 ∧ sfzReleaseTime 0 = 0.001 ∧
    dsSustain s = (s : ℝ) / 100 ∧ sfzSustainOut s = s := by
  simp [dsAttack, dsDecay, dsRelease, dsSustain, sfzAttackTime, sfzDecayTime,
    sfzReleaseTime, sfzSustainOut, ha, hd, hr]

/-- C9 witness: the envelope comparison at raw values 5 and sustain 50. -/
theorem c9_xml_envelope_witness :
    dsAttack 5 = sfzAttackTime 5 ∧ dsDecay 5 = sfzDecayTime 5 ∧
    dsRelease 5 = sfzReleaseTime 5 ∧
    dsAttack 0 = 0.001 ∧ sfzAttackTime 0 = 0 ∧
    dsDecay 0 = 0.1 ∧ sfzDecayTime 0 = 0 ∧
    dsRelease 0 = 0.1 ∧ sfzReleaseTime 0 = 0.001 ∧
    dsSustain 50 = ((50:ℕ) : ℝ) / 100 ∧ sfzSustainOut 50 = 50 :=
  c9_xml_envelope 5 5 5 50 (by norm_num) (by norm_num) (by norm_num)

-- Claim C1

/-- Every source value in the 0-12 enumeration has a tag. -/
theorem sfzModSource_some (n : ℕ) (h : n ≤ 12) :
    sfzModSource n = some ((sfzModSource n).get!) := by
  interval_cases n <;> rfl

/-- Every destination value in the 0-17 enumeration has a tag and scale. -/
theorem sfzModDest_some (n : ℕ) (h : n ≤ 17) :
    sfzModDest n = some ((sfzModDest n).get!) := by
  interval_cases n <;> rfl

/-- Source values above 12 are unmapped. -/
theorem sfzModSource_none (n : ℕ) (h : 12 < n) : sfzModSource n = none := by
  obtain ⟨k, rfl⟩ : ∃ k, n = k + 13 := ⟨n - 13, by omega⟩
  rfl

/-- Destination values above 17 are unmapped. -/
theorem sfzModDest_none (n : ℕ) (h : 17 < n) : sfzModDest n = none := by
  obtain ⟨k, rfl⟩ : ∃ k, n = k + 18 := ⟨n - 18, by omega⟩
  rfl

/-- C1: a modulation entry with source in [0,12] and destination in [0,17]
renders exactly one line whose numeric value is `((amount/100)*2-1)` times
the destination's scale factor; an entry outside either enumeration renders
no line, and in both cases the rendering of the sibling entries of the same
keygroup is untouched. -/
theorem c1_modulation_rendering (m : Modulation) (pre post : List Modulation) :
    (m.source ≤ 12 → m.destination ≤ 17 →
      renderModulation m = some ⟨(sfzModSource m.source).get!,
        ((sfzModDest m.destination).get!).1,
        ((m.amount : ℚ) / 100 * 2 - 1) * ((sfzModDest m.destination).get!).2⟩ ∧
      sfzModLines (pre ++ m :: post) =
        sfzModLines pre ++
          ⟨(sfzModSource m.source).get!, ((sfzModDest m.destination).get!).1,
            ((m.amount : ℚ) / 100 * 2 - 1) * ((sfzModDest m.destination).get!).2⟩ ::
          sfzModLines post) ∧
    ((12 < m.source ∨ 17 < m.destination) →
      renderModulation m = none ∧
      sfzModLines (pre ++ m :: post) = sfzModLines pre ++ sfzModLines post) := by
  constructor
  · intro hs hd
    obtain ⟨s0, hs0⟩ : ∃ s0, sfzModSource m.source = some s0 :=
      ⟨_, sfzModSource_some m.source hs⟩
    obtain ⟨⟨d0, sc0⟩, hp0⟩ : ∃ p0, sfzModDest m.destination = some p0 :=
      ⟨_, sfzModDest_some m.destination hd⟩
    have hget_s : (sfzModSource m.source).get! = s0 := by rw [hs0]; rfl
    have hget_p1 : ((sfzModDest m.destination).get!).1 = d0 := by rw [hp0]; rfl
    have hget_p2 : ((sfzModDest m.destination).get!).2 = sc0 := by rw [hp0]; rfl
    have hrender : renderModulation m = some ⟨s0, d0,
        ((m.amount : ℚ) / 100 * 2 - 1) * sc0⟩ := by
      rw [renderModulation, hs0, hp0]
    rw [hget_s, hget_p1, hget_p2]
    refine ⟨hrender, ?_⟩
    simp [sfzModLines, List.filterMap_append, List.filterMap_cons, hrender]
  · intro h
    have hnone : renderModulation m = none := by
      rcases h with h | h
      · rw [renderModulation, sfzModSource_none m.source h]
      · cases hcase : sfzModSource m.source with
        | none => rw [renderModulation, hcase]
        | some s => rw [renderModulation, hcase, sfzModDest_none m.destination h]
    refine ⟨hnone, ?_⟩
    simp [sfzModLines, List.filterMap_append, List.filterMap_cons, hnone]

/-- C1 witness: modwheel-to-lfo1_freq at amount 75 renders one line of value
`(75/100*2-1)*20`; an entry with source 13 is dropped without disturbing its
siblings. -/
theorem c1_modulation_rendering_witness :
    (renderModulation ⟨1, 5, 75⟩ = some ⟨"modwheel", "lfo1_freq", ((75 : ℚ) / 100 * 2 - 1) * 20⟩ ∧
     sfzModLines ([⟨0, 0, 50⟩] ++ ⟨1, 5, 75⟩ :: [⟨3, 2, 0⟩]) =
       sfzModLines [⟨0, 0, 50⟩] ++
         ⟨"modwheel", "lfo1_freq", ((75 : ℚ) / 100 * 2 - 1) * 20⟩ :: sfzModLines [⟨3, 2, 0⟩]) ∧
    (renderModulation ⟨13, 5, 75⟩ = none ∧
     sfzModLines ([⟨0, 0, 50⟩] ++ ⟨13, 5, 75⟩ :: [⟨3, 2, 0⟩]) =
       sfzModLines [⟨0, 0, 50⟩] ++ sfzModLines [⟨3, 2, 0⟩]) := by
  constructor
  · obtain ⟨h1, h2⟩ := (c1_modulation_rendering ⟨1, 5, 75⟩ [⟨0, 0, 50⟩] [⟨3, 2, 0⟩]).1
      (by norm_num) (by norm_num)
    exact ⟨h1, h2⟩
  · exact (c1_modulation_rendering ⟨13, 5, 75⟩ [⟨0, 0, 50⟩] [⟨3, 2, 0⟩]).2 (Or.inl (by norm_num))

-- Claim C6

/-- A top-level stream holding one keygroup chunk (declared size 13) whose
sub-region holds one zone chunk (declared size 5) with the given range
bytes. -/
def zoneKgrpStream (lk hk lv hv : ℕ) : List ℕ :=
  [107, 103, 114, 112, 13, 0, 0, 0, 122, 111, 110, 101, 5, 0, 0, 0, 0, lk, hk, lv, hv]

/-- C6: zone-chunk validation fails with the key-range error when
`low_key > high_key`, with the distinct velocity-range error when
`low_vel > high_vel`, and with the invalid-parameter error naming the
offending bound when `high_key > 127` or `high_vel > 127` (checks performed
in that order); moreover a failing zone chunk aborts the keygroup parse with
that error, and a failing keygroup parse aborts the top-level parse with
that error for every incoming program, so no keygroup is appended and no
program state survives. -/
theorem c6_zone_validation :
    (∀ payload kg lk hk lv hv, payload[1]? = some lk → payload[2]? = some hk →
      payload[3]? = some lv → payload[4]? = some hv →
      ((hk < lk → parseZoneChunk payload kg = .error (.InvalidKeyRange lk hk)) ∧
       (lk ≤ hk → hv < lv →
         parseZoneChunk payload kg = .error (.InvalidVelocityRange lv hv)) ∧
       (lk ≤ hk → lv ≤ hv → 127 < hk →
         parseZoneChunk payload kg = .error (.InvalidParameterValue "high_key" hk)) ∧
       (lk ≤ hk → lv ≤ hv → hk ≤ 127 → 127 < hv →
         parseZoneChunk payload kg = .error (.InvalidParameterValue "high_vel" hv)))) ∧
    (∀ bytes pos endPos pos1 sz payload st fuel e,
      pos < endPos →
      readChunkHeader bytes pos = .ok (⟨"zone", sz⟩, pos1) →
      readAt bytes pos1 sz = some payload →
      5 ≤ sz →
      parseZoneChunk payload st.kg = .error e →
      parseKeygroupLoop (fuel + 1) bytes pos endPos st = .error e) ∧
    (∀ bytes pos endPos pos1 n fuel e prog,
      pos < endPos →
      readChunkHeader bytes pos = .ok (⟨"kgrp", n⟩, pos1) →
      n ≠ 0 →
      parseKeygroup bytes pos1 (pos1 + n) = .error e →
      parseTopLevelLoop (fuel + 1) bytes pos endPos prog = .error e) := by
  refine ⟨?_, ?_, ?_⟩
  · intro payload kg lk hk lv hv h1 h2 h3 h4
    refine ⟨?_, ?_, ?_, ?_⟩
    · intro hc
      simp [parseZoneChunk, readU8, h1, h2, h3, h4, hc]
    · intro hc1 hc2
      simp [parseZoneChunk, readU8, h1, h2, h3, h4, Nat.not_lt.mpr hc1, hc2]
    · intro hc1 hc2 hc3
      simp [parseZoneChunk, readU8, h1, h2, h3, h4, Nat.not_lt.mpr hc1, Nat.not_lt.mpr hc2, hc3]
    · intro hc1 hc2 hc3 hc4
      simp [parseZoneChunk, readU8, h1, h2, h3, h4, Nat.not_lt.mpr hc1, Nat.not_lt.mpr hc2,
        Nat.not_lt.mpr hc3, hc4]
  · intro bytes pos endPos pos1 sz payload st fuel e hlt hh hp hsz he
    exact parseKeygroupLoop_zone_error bytes pos endPos pos1 sz payload st fuel e hlt hh hp hsz he
  · intro bytes pos endPos pos1 n fuel e prog hlt hh hn he
    exact parseTopLevelLoop_kgrp_error bytes pos endPos pos1 n fuel e prog hlt hh hn he

/-- C6 witness: zone bytes `[0, 72, 60, 64, 127]` fail with the key-range
error carrying (72, 60), and the same failure aborts a full top-level parse
of a stream holding that zone inside a keygroup chunk. -/
theorem c6_zone_validation_witness :
    parseZoneChunk [0, 72, 60, 64, 127] keygroupDefault = .error (.InvalidKeyRange 72 60) ∧
    parseTopLevelLoop 22 (zoneKgrpStream 72 60 64 127) 0 21 akaiProgramDefault =
      .error (.InvalidKeyRange 72 60) :=
  ⟨(c6_zone_validation.1 [0, 72, 60, 64, 127] keygroupDefault 72 60 64 127
      rfl rfl rfl rfl).1 (by norm_num),
   c6_zone_validation.2.2 (zoneKgrpStream 72 60 64 127) 0 21 8 13 21
     (.InvalidKeyRange 72 60) akaiProgramDefault (by norm_num) rfl (by norm_num) rfl⟩

-- Claim C8

/-- C8: inside one keygroup, an `env ` chunk is assigned to the amp, filter
and aux envelope slots on the first, second and third occurrence
respectively, and any later occurrence is parsed but leaves the keygroup
unchanged (only the counter advances); an `lfo ` chunk is assigned to lfo1
then lfo2, and any later occurrence is parsed but discarded likewise. -/
theorem c8_envelope_lfo_slots (st : KgState) (payloadE payloadL : List ℕ)
    (env : Envelope) (lfo : Lfo)
    (hE : 6 ≤ payloadE.length) (heE : parseEnvChunk payloadE = .ok env)
    (hL : 9 ≤ payloadL.length) (heL : parseLfoChunk payloadL = .ok lfo) :
    (st.envCount = 0 → parseKeygroupStep "env " payloadE.length payloadE st =
      .ok ⟨{ st.kg with amp_env := some env }, st.envCount + 1, st.lfoCount⟩) ∧
    (st.envCount = 1 → parseKeygroupStep "env " payloadE.length payloadE st =
      .ok ⟨{ st.kg with filter_env := some env }, st.envCount + 1, st.lfoCount⟩) ∧
    (st.envCount = 2 → parseKeygroupStep "env " payloadE.length payloadE st =
      .ok ⟨{ st.kg with aux_env := some env }, st.envCount + 1, st.lfoCount⟩) ∧
    (3 ≤ st.envCount → parseKeygroupStep "env " payloadE.length payloadE st =
      .ok ⟨st.kg, st.envCount + 1, st.lfoCount⟩) ∧
    (st.lfoCount = 0 → parseKeygroupStep "lfo " payloadL.length payloadL st =
      .ok ⟨{ st.kg with lfo1 := some lfo }, st.envCount, st.lfoCount + 1⟩) ∧
    (st.lfoCount = 1 → parseKeygroupStep "lfo " payloadL.length payloadL st =
      .ok ⟨{ st.kg with lfo2 := some lfo }, st.envCount, st.lfoCount + 1⟩) ∧
    (2 ≤ st.lfoCount → parseKeygroupStep "lfo " payloadL.length payloadL st =
      .ok ⟨st.kg, st.envCount, st.lfoCount + 1⟩) := by
  refine ⟨?_, ?_, ?_, ?_, ?_, ?_, ?_⟩
  · intro h
    simp [parseKeygroupStep, heE, h, Nat.not_lt.mpr hE]
  · intro h
    simp [parseKeygroupStep, heE, h, Nat.not_lt.mpr hE]
  · intro h
    simp [parseKeygroupStep, heE, h, Nat.not_lt.mpr hE]
  · intro h
    have h0 : ¬ st.envCount = 0 := by omega
    have h1 : ¬ st.envCount = 1 := by omega
    have h2 : ¬ st.envCount = 2 := by omega
    simp [parseKeygroupStep, heE, Nat.not_lt.mpr hE, h0, h1, h2]
    try rw [if_neg h0, if_neg h1, if_neg h2]
  · intro h
    simp [parseKeygroupStep, heL, h, Nat.not_lt.mpr hL]
  · intro h
    simp [parseKeygroupStep, heL, h, Nat.not_lt.mpr hL]
  · intro h
    have h0 : ¬ st.lfoCount = 0 := by omega
    have h1 : ¬ st.lfoCount = 1 := by omega
    simp [parseKeygroupStep, heL, Nat.not_lt.mpr hL, h0, h1]
    try rw [if_neg h0, if_neg h1]

/-- C8 witness: the slot assignment at counters 0 and 3 (envelopes) and 0 and
2 (LFOs) on concrete chunk payloads. -/
theorem c8_envelope_lfo_slots_witness :
    parseKeygroupStep "env " 6 [0, 0, 10, 50, 80, 30] ⟨keygroupDefault, 0, 0⟩ =
      .ok ⟨{ keygroupDefault with amp_env := some ⟨10, 50, 80, 30⟩ }, 1, 0⟩ ∧
    parseKeygroupStep "env " 6 [0, 0, 10, 50, 80, 30] ⟨keygroupDefault, 3, 0⟩ =
      .ok ⟨keygroupDefault, 4, 0⟩ ∧
    parseKeygroupStep "lfo " 9 [0, 0, 0, 0, 0, 1, 30, 0, 50] ⟨keygroupDefault, 0, 0⟩ =
      .ok ⟨{ keygroupDefault with lfo1 := some ⟨1, 30, 0, 50⟩ }, 0, 1⟩ ∧
    parseKeygroupStep "lfo " 9 [0, 0, 0, 0, 0, 1, 30, 0, 50] ⟨keygroupDefault, 0, 2⟩ =
      .ok ⟨keygroupDefault, 0, 3⟩ :=
  ⟨(c8_envelope_lfo_slots ⟨keygroupDefault, 0, 0⟩ [0, 0, 10, 50, 80, 30]
      [0, 0, 0, 0, 0, 1, 30, 0, 50] ⟨10, 50, 80, 30⟩ ⟨1, 30, 0, 50⟩
      (by norm_num) rfl (by norm_num) rfl).1 rfl,
   (c8_envelope_lfo_slots ⟨keygroupDefault, 3, 0⟩ [0, 0, 10, 50, 80, 30]
      [0, 0, 0, 0, 0, 1, 30, 0, 50] ⟨10, 50, 80, 30⟩ ⟨1, 30, 0, 50⟩
      (by norm_num) rfl (by norm_num) rfl).2.2.2.1 (by norm_num),
   (c8_envelope_lfo_slots ⟨keygroupDefault, 0, 0⟩ [0, 0, 10, 50, 80, 30]
      [0, 0, 0, 0, 0, 1, 30, 0, 50] ⟨10, 50, 80, 30⟩ ⟨1, 30, 0, 50⟩
      (by norm_num) rfl (by norm_num) rfl).2.2.2.2.1 rfl,
   (c8_envelope_lfo_slots ⟨keygroupDefault, 0, 2⟩ [0, 0, 10, 50, 80, 30]
      [0, 0, 0, 0, 0, 1, 30, 0, 50] ⟨10, 50, 80, 30⟩ ⟨1, 30, 0, 50⟩
      (by norm_num) rfl (by norm_num) rfl).2.2.2.2.2.2 (by norm_num)⟩

-- Claim C10

/-- The text of the XML sample element that precedes the filename. -/
def xmlSamplePrefix : String := "      <sample " ++ "path=\x22"

/-- The text of the XML sample element that follows the filename; it does not
depend on the filename. -/
def xmlSampleSuffix (lowKey highKey lowVel highVel : ℕ) (tune : Option Tune) : String :=
  "\x22 " ++
  ("loNote=\x22" ++ toString lowKey ++ "\x22 hiNote=\x22" ++ toString highKey ++ "\x22 ") ++
  ("loVel=\x22" ++ toString lowVel ++ "\x22 hiVel=\x22" ++ toString highVel ++ "\x22 ") ++
  (match tune with
   | some t =>
     (if t.semitone ≠ 0 then "tuning=\x22" ++ toString t.semitone ++ "\x22 " else "") ++
     (if t.fine_tune ≠ 0 then "fineTuning=\x22" ++ toString t.fine_tune ++ "\x22 " else "")
   | none => "") ++
  "/>\n"

/-- C10: the XML generator interpolates the sample filename verbatim into the
`path` attribute — the element is a filename-independent prefix, the raw
filename, and a filename-independent suffix — while the opcode generator
replaces backslashes with forward slashes; concretely, a filename holding a
backslash, a double quote and an angle bracket appears unchanged in the XML
sample element but altered in the SFZ sample opcode. -/
theorem c10_xml_sample_path (lk hk lv hv : ℕ) (s : Sample) (t : Option Tune) :
    xmlSampleElement lk hk lv hv s t = xmlSamplePrefix ++ s.filename ++ xmlSampleSuffix lk hk lv hv t ∧
    sfzSampleOpcode s = "sample=" ++ replaceBackslashes s.filename ++ "\n" ∧
    xmlSampleElement 0 0 0 0 ⟨"a\x5cb\x22c<d.wav"⟩ none =
      "      <sample path=\x22a\x5cb\x22c<d.wav\x22 loNote=\x220\x22 hiNote=\x220\x22 loVel=\x220\x22 hiVel=\x220\x22 />\n" ∧
    sfzSampleOpcode ⟨"a\x5cb\x22c<d.wav"⟩ = "sample=a/b\x22c<d.wav\n" := by
  refine ⟨?_, rfl, ?_, ?_⟩
  · simp only [xmlSampleElement, xmlSamplePrefix, xmlSampleSuffix, String.append_assoc]
  · rfl
  · rfl

end RustySamplers
